import Mathlib

/-!
Verification development for the Open Forms admin front-end
(`src/openforms/js/components/admin`): the action/variable configuration and
type-coercion subsystem described in `spec.md`.

The JavaScript components are embedded shallowly: each React component's pure
logic (the value it computes from its inputs, the value it dispatches on a
change event, the side effect it performs on the form state) is an explicit
Lean function, and object mutation through references is modelled with an
explicit store where a claim requires it.
-/

namespace OpenForms

/-! ## Type coercion table and the property-action cast helpers

`Actions.js` imports `STRING_TO_TYPE`, `TYPE_TO_STRING` and
`MODIFIABLE_PROPERTIES` from `components/admin/form_design/logic/constants`,
a module that is not part of the provided sources.  The table itself is
modelled from the spec; the cast helpers wrapping it are translated from
`ActionProperty` in `Actions.js` (lines 32-41).
-/

/-- A typed value stored in a logic action's `state` payload. -/
inductive TypedValue where
  | vBool (b : Bool)
deriving DecidableEq, Repr

/-- Modelled from the spec: the per-property-type coercion table module
(`form_design/logic/constants`) is absent from the provided sources.  The
spec describes "per-property-type functions converting a typed value to/from
its string UI representation"; the modifiable-property editor in `Actions.js`
offers boolean-valued properties through string choices, so the table is
modelled with the boolean value type, whose string representation is the
JavaScript `String(value)` rendering `"true"` / `"false"`. -/
def TYPE_TO_STRING : String → Option (TypedValue → String) :=
  fun valueType =>
    if valueType = "bool" then
      some (fun v => match v with
        | .vBool b => if b then "true" else "false")
    else none

/-- Modelled from the spec: inverse direction of the coercion table (see
`TYPE_TO_STRING`); a string is coerced to the boolean it names, the
JavaScript `stringValue === 'true'` test. -/
def STRING_TO_TYPE : String → Option (String → TypedValue) :=
  fun valueType =>
    if valueType = "bool" then some (fun s => .vBool (s == "true"))
    else none

/-- Whether a typed value is legal for a property value type: the value's
constructor agrees with the type tag the coercion table is keyed by. -/
def legalForType : String → TypedValue → Bool :=
  fun valueType v => match v with
    | .vBool _ => valueType == "bool"

/-- The `action.property` payload of a property action: the selected
modifiable property's declared value type and its key. -/
structure ActionPropertyRef where
  type : String
  value : String
deriving DecidableEq, Repr

/-- The inner `action` record of a property logic action: the selected
property and the typed `state` to assign to it. -/
structure PropertyActionPayload where
  property : ActionPropertyRef
  state : TypedValue
deriving DecidableEq, Repr

/-- Helper `castValueTypeToString` from `ActionProperty` (`Actions.js` lines 32-36):
renders the action's stored typed `state` with the `TYPE_TO_STRING` entry for
the selected property's value type.  `none` models the JavaScript `TypeError`
raised when the value type is not a key of the table. -/
def castValueTypeToString (a : PropertyActionPayload) : Option String :=
  (TYPE_TO_STRING a.property.type).map (fun f => f a.state)

/-- Helper `castValueStringToType` from `ActionProperty` (`Actions.js` lines 38-41):
parses a choice string with the `STRING_TO_TYPE` entry for the selected
property's value type. -/
def castValueStringToType (a : PropertyActionPayload) (value : String) :
    Option TypedValue :=
  (STRING_TO_TYPE a.property.type).map (fun g => g value)

/-! ## Action dispatcher

`ActionComponent` (`Actions.js` lines 240-277) switches on the action's type
tag and either picks an editor component, renders nothing (`null`), or throws
`Unknown action type: ...`. -/

/-- The editor components an action type tag can dispatch to. -/
inductive Editor where
  | actionProperty
  | actionVariableValue
  | actionFetchFromService
  | actionStepNotApplicable
  | actionStepApplicable
  | actionSetRegistrationBackend
deriving DecidableEq, Repr

/-- Dispatcher `ActionComponent` (`Actions.js` lines 240-277) as a function of the
action's type tag: `.ok (some e)` renders editor `e`, `.ok none` is the
`return null` branch, `.error msg` is the thrown `Error`. -/
def ActionComponent (typeTag : String) : Except String (Option Editor) :=
  if typeTag = "property" then .ok (some .actionProperty)
  else if typeTag = "variable" then .ok (some .actionVariableValue)
  else if typeTag = "fetch-from-service" then .ok (some .actionFetchFromService)
  else if typeTag = "" ∨ typeTag = "disable-next" then .ok none
  else if typeTag = "step-not-applicable" then .ok (some .actionStepNotApplicable)
  else if typeTag = "step-applicable" then .ok (some .actionStepApplicable)
  else if typeTag = "set-registration-backend" then
    .ok (some .actionSetRegistrationBackend)
  else .error ("Unknown action type: " ++ typeTag)

/-- The eight action type tags handled by `ActionComponent` without throwing. -/
def handledActionTypes : List String :=
  ["property", "variable", "fetch-from-service", "", "disable-next",
   "step-not-applicable", "step-applicable", "set-registration-backend"]

/-! ## Property-selection change handler

The `onChange` handler of the property `Select` in `ActionProperty`
(`Actions.js` lines 54-66) dispatches a fake event whose value is
`{type: MODIFIABLE_PROPERTIES[propertySelected]?.type || '', value:
propertySelected}`.  The `MODIFIABLE_PROPERTIES` table itself lives in the
absent `logic/constants` module, so the handler is embedded parametrically in
the table. -/

/-- One entry of the `MODIFIABLE_PROPERTIES` table: the property's display
label, its value type tag, and its selectable string options. -/
structure ModifiableProperty where
  label : String
  type : String
  options : List (String × String)
deriving DecidableEq, Repr

/-- JavaScript property lookup `table[key]` on an object literal modelled as
an association list. -/
def lookupProperty (table : List (String × ModifiableProperty)) (key : String) :
    Option ModifiableProperty :=
  (table.find? (fun entry => entry.1 == key)).map (·.2)

/-- The value dispatched by the property `Select`'s change handler in
`ActionProperty` (`Actions.js` lines 54-66): the selected key together with
`MODIFIABLE_PROPERTIES[propertySelected]?.type || ''`.  The JavaScript `||`
yields `''` both when the lookup misses (optional chaining gives `undefined`)
and when the declared type is the falsy empty string. -/
def propertySelectedValue (table : List (String × ModifiableProperty))
    (propertySelected : String) : ActionPropertyRef :=
  { type :=
      match lookupProperty table propertySelected with
      | some info => if info.type = "" then "" else info.type
      | none => ""
    value := propertySelected }

/-! ## Prefill configuration form

`PrefillConfigurationForm.js` (and the `src/unnamed/part_000` variant with
the `objects_api` plugin branch) holds the Formik values
`{plugin, attribute, identifierRole, prefillOptions}`.  `PluginField` resets
`attribute` to `''` whenever the `plugin` value changes (the
`useUpdateEffect`), `AttributeField` is disabled exactly when `plugin` is
falsy, and the Objects API group / object type selects guard their change
with an `onChangeCheck` that asks for confirmation before clearing
`prefillOptions.variablesMapping`. -/

/-- One entry of `prefillOptions.variablesMapping`: a form variable mapped to
a prefill attribute of the selected object type. -/
structure MappingEntry where
  formVariable : String
  prefillAttribute : String
deriving DecidableEq, Repr

/-- The Objects API prefill options of the Formik values
(`prefillOptions` in `src/unnamed/part_000` lines 29-34). -/
structure PrefillOptions where
  objectsApiGroup : String
  objecttype : String
  objecttypeVersion : Option Nat
  variablesMapping : List MappingEntry
deriving DecidableEq, Repr

/-- The Formik values of `PrefillConfigurationForm`
(`src/unnamed/part_000` lines 39-44). -/
structure PrefillValues where
  plugin : String
  /-- The JavaScript field is named `attribute`, a reserved word in Lean. -/
  attributeValue : String
  identifierRole : String
  prefillOptions : PrefillOptions
deriving DecidableEq, Repr

/-- The effect of changing the `plugin` field to `newPlugin`: the field
itself is set, and the `useUpdateEffect` in `PluginField`
(`src/unnamed/part_000` lines 85-101) runs `setFieldValue('attribute', '')`
whenever the plugin value changed. -/
def pluginFieldUpdate (values : PrefillValues) (newPlugin : String) :
    PrefillValues :=
  let afterSet := { values with plugin := newPlugin }
  if newPlugin ≠ values.plugin then { afterSet with attributeValue := "" }
  else afterSet

/-- The `disabled` prop of the attribute `Select` in `AttributeField`
(`src/unnamed/part_000` lines 103-118): `disabled={!plugin}`, and a
JavaScript string is falsy exactly when it is empty. -/
def attributeFieldDisabled (values : PrefillValues) : Bool :=
  values.plugin == ""

/-- The `onChangeCheck` guard of the `ObjectsAPIGroup` select in
`ObjectsAPIPrefillFields` (`src/unnamed/part_000` lines 261-274), with the
user's answer to `window.confirm` passed explicitly: returns whether the
change may proceed, together with the `variablesMapping` after any
`setFieldValue('prefillOptions.variablesMapping', [])` it performed. -/
def apiGroupOnChangeCheck (variablesMapping : List MappingEntry)
    (confirmSwitch : Bool) : Bool × List MappingEntry :=
  if variablesMapping.length = 0 then (true, variablesMapping)
  else if ¬confirmSwitch then (false, variablesMapping)
  else (true, [])

/-- The `onChangeCheck` guard of the `ObjectTypeSelect` in
`ObjectsAPIPrefillFields` (`src/unnamed/part_000` lines 286-299); its body is
the same check as `apiGroupOnChangeCheck` with a different warning message. -/
def objectTypeOnChangeCheck (variablesMapping : List MappingEntry)
    (confirmSwitch : Bool) : Bool × List MappingEntry :=
  if variablesMapping.length = 0 then (true, variablesMapping)
  else if ¬confirmSwitch then (false, variablesMapping)
  else (true, [])

/-! ## Variable selection dropdown

`VariableSelection.js` builds grouped dropdown choices from the form context:
static variables are prepended only when `includeStaticVariables` is set, the
`filter` predicate keeps a subset, and each kept variable is pushed into the
single group named by `getVariableSource`.  The `VARIABLE_SOURCES` constant
is imported from the absent `form_design/variables/constants` module. -/

/-- Modelled from the spec: `VARIABLE_SOURCES` from
`form_design/variables/constants` is absent from the provided sources.  The
spec's data model gives `source: enum{user-defined, component, static}`, and
`Actions.js` line 161 compares `variable.source === 'user_defined'`, fixing
the string values. -/
def VARIABLE_SOURCES : List (String × String) :=
  [("userDefined", "user_defined"), ("component", "component")]

/-- Value of `VARIABLE_SOURCES.userDefined`. -/
def sourceUserDefined : String := "user_defined"

/-- Value of `VARIABLE_SOURCES.component`. -/
def sourceComponent : String := "component"

/-- A form variable as consumed by `VariableSelection.js`: its key, display
name, source tag, and the form definition it belongs to (`none` models the
absent property for user-defined and static variables). -/
structure FormVariable where
  key : String
  name : String
  source : String
  formDefinition : Option String
deriving DecidableEq, Repr

/-- A form step as consumed by `VariableSelection.js` lines 22-25: its form
definition reference (`none` models the absent property of an unsaved step),
the client-side generated identifier, and its names. -/
structure FormStep where
  formDefinition : Option String
  generatedId : String
  internalName : String
  name : String
deriving DecidableEq, Repr

/-- JavaScript `step.formDefinition || step._generatedId` (`VariableSelection.js` line
24): the key a step is recorded under, falling back to the generated id when
the form definition reference is absent or the falsy empty string. -/
def stepKey (step : FormStep) : String :=
  if step.formDefinition.getD "" = "" then step.generatedId
  else step.formDefinition.getD ""

/-- JavaScript `step.internalName || step.name` (`VariableSelection.js` line 24). -/
def stepDisplayName (step : FormStep) : String :=
  if step.internalName = "" then step.name else step.internalName

/-- Map `formDefinitionsNames` (`VariableSelection.js` lines 22-25), from from
form definition key to display name, later steps overwriting earlier ones as
JavaScript object assignment does. -/
def formDefinitionsNames (formSteps : List FormStep) : String → Option String :=
  formSteps.foldl
    (fun acc step => fun k =>
      if k = stepKey step then some (stepDisplayName step) else acc k)
    (fun _ => none)

/-- Helper `getVariableSource` (`VariableSelection.js` lines 29-37): the label of
the single group a variable belongs to. -/
def getVariableSource (formVar : FormVariable) : String :=
  if formVar.source = sourceUserDefined then "user variables"
  else if formVar.source = sourceComponent then "component variables"
  else "static variables"

/-- One dropdown option: the variable's key as value and its HTML label. -/
structure ChoiceOption where
  value : String
  label : String
deriving DecidableEq, Repr

/-- One labelled group of dropdown options. -/
structure ChoiceGroup where
  label : String
  options : List ChoiceOption
deriving DecidableEq, Repr

/-- The HTML label built for a variable (`VariableSelection.js` lines 43-46):
the name and key, extended with the form definition name when the lookup
`formDefinitionsNames[variable.formDefinition]` is truthy — the guard is a
JavaScript `if`, so the span is skipped both when the lookup misses and when
the looked-up display name is the falsy empty string. -/
def variableOptionLabel (formSteps : List FormStep) (formVar : FormVariable) :
    String :=
  let base :=
    "<span class=\"form-variable-dropdown__option__label\">" ++ formVar.name ++
    " <code class=\"form-variable-dropdown__option__key\">(" ++ formVar.key ++
    ")</code></span>"
  match formVar.formDefinition.bind (formDefinitionsNames formSteps) with
  | some defName =>
      if defName = "" then base
      else
        base ++
        "<span class=\"form-variable-dropdown__option__form-definition\">" ++
        defName ++ "</span>"
  | none => base

/-- JavaScript `variableGroups.find(group => group.label === ...).options.push(...)`
(`VariableSelection.js` lines 48-50): append the option to the first group
whose label matches. -/
def pushToGroup (groups : List ChoiceGroup) (groupLabel : String)
    (option : ChoiceOption) : List ChoiceGroup :=
  match groups with
  | [] => []
  | g :: rest =>
      if g.label = groupLabel then
        { g with options := g.options ++ [option] } :: rest
      else g :: pushToGroup rest groupLabel option

/-- The option pushed for one variable (`VariableSelection.js` line 50):
`{value: variable.key, label}`. -/
def variableChoiceOption (formSteps : List FormStep) (formVar : FormVariable) :
    ChoiceOption :=
  { value := formVar.key, label := variableOptionLabel formSteps formVar }

/-- The `choices` computed by `VariableSelection` (`VariableSelection.js`
lines 27 and 39-58): static variables are included only when requested, the
filter keeps a subset, and the reduce pushes each kept variable into the
group named by its source, starting from the three empty groups. -/
def variableSelectionChoices (includeStaticVariables : Bool)
    (staticVariables formVariables : List FormVariable)
    (formSteps : List FormStep) (filter : FormVariable → Bool) :
    List ChoiceGroup :=
  let allFormVariables :=
    (if includeStaticVariables then staticVariables else []) ++ formVariables
  (allFormVariables.filter filter).foldl
    (fun variableGroups formVar =>
      pushToGroup variableGroups (getVariableSource formVar)
        (variableChoiceOption formSteps formVar))
    [⟨"user variables", []⟩, ⟨"component variables", []⟩,
     ⟨"static variables", []⟩]

/-- The `filter` prop the fetch-from-service editor passes to
`VariableSelection` (`Actions.js` line 161). -/
def fetchFromServiceFilter (formVar : FormVariable) : Bool :=
  formVar.source == "user_defined"

/-! ## Fetch-from-service normalization on a deep clone

`ActionFetchFromService` (`Actions.js` lines 125-150) looks the selected
variable up in the form context, takes `_.cloneDeep` of it, and normalizes
the clone's `serviceFetchConfiguration` in place: `headers` and
`queryParams` are converted from objects to `Object.entries` arrays when not
already arrays, and `mappingExpression` is copied into
`jsonLogicExpression` or `jqExpression` depending on `dataMappingType`.

Mutation through references is modelled with an explicit store of
configuration objects: each form variable holds an optional store index,
`_.cloneDeep` allocates a fresh cell holding a copy, and each `=` assignment
to a field is a store write at an index. -/

/-- The `headers` / `queryParams` field of a service fetch configuration:
either a plain object of key-value pairs or already an array of `[key,
value]` entries, or absent. -/
inductive KeyValueData where
  | asObject (pairs : List (String × String))
  | asEntries (pairs : List (String × String))
deriving DecidableEq, Repr

/-- JavaScript `Array.isArray` on a `KeyValueData` value. -/
def KeyValueData.isArray : KeyValueData → Bool
  | .asObject _ => false
  | .asEntries _ => true

/-- JavaScript entries of the object when present, in insertion order,
and the empty list when the field is absent. -/
def entriesOrEmpty : Option KeyValueData → List (String × String)
  | none => []
  | some (.asObject pairs) => pairs
  | some (.asEntries pairs) => pairs

/-- A service fetch configuration as normalized by `ActionFetchFromService`
(`Actions.js` lines 129-150). -/
structure ServiceFetchConfig where
  name : String
  headers : Option KeyValueData
  queryParams : Option KeyValueData
  dataMappingType : String
  mappingExpression : String
  jsonLogicExpression : Option String
  jqExpression : Option String
deriving DecidableEq, Repr

/-- A form variable of the form context as used by `ActionFetchFromService`:
its key and an optional reference (store index) to its
`serviceFetchConfiguration` object. -/
structure FetchContextVariable where
  key : String
  serviceFetchConfiguration : Option Nat
deriving DecidableEq, Repr

/-- The store of service fetch configuration objects the variables of the
form context point into. -/
abbrev ConfigStore := List ServiceFetchConfig

/-- Write field update `f` through reference `i`: the in-place mutation
`store[i] = f store[i]` of one configuration object. -/
def storeWrite (store : ConfigStore) (i : Nat)
    (f : ServiceFetchConfig → ServiceFetchConfig) : ConfigStore :=
  match store[i]? with
  | some cfg => store.set i (f cfg)
  | none => store

/-- The three in-place normalization steps of `Actions.js` lines 129-150
applied through reference `i`: make `headers` an entries array when it is
not one, likewise `queryParams`, then copy `mappingExpression` into
`jsonLogicExpression` when `dataMappingType` is `'JsonLogic'` and into
`jqExpression` otherwise (the `'jq'` case and the `default` case assign the
same field). -/
def normalizeConfigAt (store : ConfigStore) (i : Nat) : ConfigStore :=
  let s1 := storeWrite store i (fun cfg =>
    if (cfg.headers.map KeyValueData.isArray).getD false then cfg
    else { cfg with headers := some (.asEntries (entriesOrEmpty cfg.headers)) })
  let s2 := storeWrite s1 i (fun cfg =>
    if (cfg.queryParams.map KeyValueData.isArray).getD false then cfg
    else
      { cfg with queryParams := some (.asEntries (entriesOrEmpty cfg.queryParams)) })
  storeWrite s2 i (fun cfg =>
    if cfg.dataMappingType = "JsonLogic" then
      { cfg with jsonLogicExpression := some cfg.mappingExpression }
    else { cfg with jqExpression := some cfg.mappingExpression })

/-- The `serviceFetchConfigFromVar` computation of `ActionFetchFromService`
(`Actions.js` lines 125-150): find the selected variable,
`_.cloneDeep` it (modelled as allocating a fresh store cell holding a copy
of its configuration), normalize the clone in place, and return the
reference to the clone together with the final store.  `none` covers both a
missing variable and a variable without a `serviceFetchConfiguration`. -/
def serviceFetchConfigFromVar (store : ConfigStore)
    (formVariables : List FetchContextVariable) (actionVariable : String) :
    Option Nat × ConfigStore :=
  match formVariables.find? (fun element => element.key == actionVariable) with
  | none => (none, store)
  | some element =>
      match element.serviceFetchConfiguration with
      | none => (none, store)
      | some r =>
          match store[r]? with
          | none => (none, store)
          | some cfg =>
              let fresh := store.length
              let cloned := store ++ [cfg]
              (some fresh, normalizeConfigAt cloned fresh)

/-! ## Password field edit form

`PasswordField.editForm` (`password.js` lines 14-34) rebuilds the default
password tabs, replacing the sensitive-password tab's components with those
whose key differs from `DEFAULT_VALUE.key`, and passing the advanced,
validation, registration and translations tabs through unchanged.  The tab
constants come from the absent `edit/tabs` module, so `editForm` is embedded
parametrically in them; `DEFAULT_VALUE` is translated from the provided
`edit/options.js` source. -/

/-- A component of a Formio edit-form tab, as far as `editForm` inspects it:
its key plus its remaining configuration, kept abstract. -/
structure EditFormComponent where
  key : String
  label : String
  tooltip : String
  input : Bool
deriving DecidableEq, Repr

/-- Constant `DEFAULT_VALUE` from `edit/options.js` (lines 158-163). -/
def DEFAULT_VALUE : EditFormComponent :=
  { label := "Default Value"
    key := "defaultValue"
    tooltip := "This will be the initial value for this field, before user interaction."
    input := true }

/-- A tab of the edit form: its key and its components. -/
structure EditFormTab where
  key : String
  components : List EditFormComponent
deriving DecidableEq, Repr

/-- The edit form built by `PasswordField.editForm` (`password.js` lines
14-34), parametric in the tab constants of the absent `edit/tabs` module:
the sensitive-password tab keeps only the components whose key differs from
`DEFAULT_VALUE.key`; the other four tabs are passed through unchanged. -/
def passwordEditForm (sensitivePassword advanced validation registration
    translations : EditFormTab) : List EditFormTab :=
  [{ sensitivePassword with
      components := sensitivePassword.components.filter
        (fun option => option.key != DEFAULT_VALUE.key) },
   advanced, validation, registration, translations]

/-! ## Theorems -/

/-- C1: for every property type in the coercion table and every typed value
legal for it, converting the stored typed value to its string UI
representation with `castValueTypeToString` and back with
`castValueStringToType` yields the value again. -/
theorem castValue_roundTrip (a : PropertyActionPayload)
    (hlegal : legalForType a.property.type a.state = true) :
    (castValueTypeToString a).bind (castValueStringToType a) = some a.state := by
  obtain ⟨⟨ptype, pvalue⟩, state⟩ := a
  cases state with
  | vBool b =>
      have htype : ptype = "bool" := by
        simpa [legalForType] using hlegal
      subst htype
      cases b <;>
        simp [castValueTypeToString, castValueStringToType, TYPE_TO_STRING,
          STRING_TO_TYPE]

/-- Witness for `castValue_roundTrip` at the stored value `true` of a
boolean-typed property action. -/
theorem castValue_roundTrip_witness :
    legalForType "bool" (.vBool true) = true ∧
      (castValueTypeToString ⟨⟨"bool", "hidden"⟩, .vBool true⟩).bind
        (castValueStringToType ⟨⟨"bool", "hidden"⟩, .vBool true⟩) =
        some (.vBool true) :=
  ⟨by decide, castValue_roundTrip ⟨⟨"bool", "hidden"⟩, .vBool true⟩ (by decide)⟩

/-- C2: `ActionComponent` maps each handled action type tag to exactly the
editor the switch names, and renders nothing for the empty tag and for
`disable-next`. -/
theorem ActionComponent_dispatch :
    ActionComponent "property" = .ok (some .actionProperty) ∧
    ActionComponent "variable" = .ok (some .actionVariableValue) ∧
    ActionComponent "fetch-from-service" = .ok (some .actionFetchFromService) ∧
    ActionComponent "step-not-applicable" = .ok (some .actionStepNotApplicable) ∧
    ActionComponent "step-applicable" = .ok (some .actionStepApplicable) ∧
    ActionComponent "set-registration-backend" =
      .ok (some .actionSetRegistrationBackend) ∧
    ActionComponent "" = .ok none ∧
    ActionComponent "disable-next" = .ok none := by
  refine ⟨?_, ?_, ?_, ?_, ?_, ?_, ?_, ?_⟩ <;> rfl

/-- C8: `ActionComponent` raises an error naming the unknown type on every
tag outside the eight handled ones, and never raises on a handled tag. -/
theorem ActionComponent_unknown_type (t : String) :
    (t ∉ handledActionTypes →
      ActionComponent t = .error ("Unknown action type: " ++ t)) ∧
    (t ∈ handledActionTypes → ∃ r, ActionComponent t = .ok r) := by
  constructor
  · intro h
    simp only [handledActionTypes, List.mem_cons, List.not_mem_nil, or_false,
      not_or] at h
    obtain ⟨h1, h2, h3, h4, h5, h6, h7, h8⟩ := h
    simp [ActionComponent, h1, h2, h3, h4, h5, h6, h7, h8]
  · intro h
    simp only [handledActionTypes, List.mem_cons, List.not_mem_nil, or_false] at h
    rcases h with h | h | h | h | h | h | h | h <;> subst h <;>
      exact ⟨_, rfl⟩

/-- Witness for `ActionComponent_unknown_type`: the unhandled tag
`change-price` throws an error naming it, and the handled tag `variable`
does not throw. -/
theorem ActionComponent_unknown_type_witness :
    ActionComponent "change-price" =
        .error ("Unknown action type: " ++ "change-price") ∧
      ∃ r, ActionComponent "variable" = .ok r :=
  ⟨(ActionComponent_unknown_type "change-price").1 (by decide),
   (ActionComponent_unknown_type "variable").2 (by decide)⟩

/-- C3: changing the Objects API prefill's API group or object type leaves
an empty variables mapping untouched and proceeds; with a non-empty mapping
it proceeds exactly when the user confirms, clearing the mapping, and a
declined change is rejected with the mapping unchanged. -/
theorem objectsApiPrefill_mapping_invalidation (m : List MappingEntry)
    (confirmSwitch : Bool) :
    (m = [] →
      apiGroupOnChangeCheck m confirmSwitch = (true, m) ∧
      objectTypeOnChangeCheck m confirmSwitch = (true, m)) ∧
    (m ≠ [] → confirmSwitch = true →
      apiGroupOnChangeCheck m confirmSwitch = (true, []) ∧
      objectTypeOnChangeCheck m confirmSwitch = (true, [])) ∧
    (m ≠ [] → confirmSwitch = false →
      apiGroupOnChangeCheck m confirmSwitch = (false, m) ∧
      objectTypeOnChangeCheck m confirmSwitch = (false, m)) := by
  refine ⟨?_, ?_, ?_⟩
  · rintro rfl
    simp [apiGroupOnChangeCheck, objectTypeOnChangeCheck]
  · rintro hm rfl
    have hlen : m.length ≠ 0 := by simpa using hm
    simp [apiGroupOnChangeCheck, objectTypeOnChangeCheck, hlen]
  · rintro hm rfl
    have hlen : m.length ≠ 0 := by simpa using hm
    simp [apiGroupOnChangeCheck, objectTypeOnChangeCheck, hlen]

/-- Witness for `objectsApiPrefill_mapping_invalidation`: a confirmed change
on a one-entry mapping proceeds and clears the mapping. -/
theorem objectsApiPrefill_mapping_invalidation_witness :
    apiGroupOnChangeCheck [⟨"firstName", "name.first"⟩] true = (true, []) ∧
      objectTypeOnChangeCheck [⟨"firstName", "name.first"⟩] true = (true, []) :=
  (objectsApiPrefill_mapping_invalidation [⟨"firstName", "name.first"⟩]
    true).2.1 (by decide) rfl

/-- Every variable lands in exactly one of the three source groups. -/
lemma getVariableSource_cases (formVar : FormVariable) :
    getVariableSource formVar = "user variables" ∨
    getVariableSource formVar = "component variables" ∨
    getVariableSource formVar = "static variables" := by
  unfold getVariableSource
  by_cases h1 : formVar.source = sourceUserDefined
  · left; simp [h1]
  · by_cases h2 : formVar.source = sourceComponent
    · right; left; simp [h1, h2, sourceUserDefined, sourceComponent]
    · right; right; simp [h1, h2]

/-- Characterization of the grouping reduce of `VariableSelection.js`: the
fold over any variable list appends to each of the three groups exactly the
options of the variables whose source names that group, in order. -/
lemma foldl_pushToGroup (formSteps : List FormStep) (vs : List FormVariable)
    (u c s : List ChoiceOption) :
    vs.foldl
        (fun variableGroups formVar =>
          pushToGroup variableGroups (getVariableSource formVar)
            (variableChoiceOption formSteps formVar))
        [⟨"user variables", u⟩, ⟨"component variables", c⟩,
         ⟨"static variables", s⟩] =
      [⟨"user variables",
          u ++ (vs.filter
            (fun v => getVariableSource v == "user variables")).map
            (variableChoiceOption formSteps)⟩,
       ⟨"component variables",
          c ++ (vs.filter
            (fun v => getVariableSource v == "component variables")).map
            (variableChoiceOption formSteps)⟩,
       ⟨"static variables",
          s ++ (vs.filter
            (fun v => getVariableSource v == "static variables")).map
            (variableChoiceOption formSteps)⟩] := by
  induction vs generalizing u c s with
  | nil => simp
  | cons v vs ih =>
      rcases getVariableSource_cases v with h | h | h <;>
        simp [List.foldl_cons, List.filter_cons, pushToGroup, h, ih,
          List.append_assoc]

/-- C4: the property-selection change handler always dispatches the selected
key as the property value, with the type equal to the selected modifiable
property's declared type when the selection is in the table and the empty
string otherwise (in particular for a blank selection, which is never a
table key). -/
theorem propertySelectedValue_spec (table : List (String × ModifiableProperty))
    (propertySelected : String) :
    (propertySelectedValue table propertySelected).value = propertySelected ∧
    (∀ info, lookupProperty table propertySelected = some info →
      (propertySelectedValue table propertySelected).type = info.type) ∧
    (lookupProperty table propertySelected = none →
      (propertySelectedValue table propertySelected).type = "") := by
  refine ⟨rfl, ?_, ?_⟩
  · intro info hinfo
    by_cases htype : info.type = "" <;>
      simp [propertySelectedValue, hinfo, htype]
  · intro hnone
    simp [propertySelectedValue, hnone]

/-- Witness for `propertySelectedValue_spec`: selecting `hidden` from a
table declaring it boolean dispatches `{type: 'bool', value: 'hidden'}`,
and a blank selection dispatches the empty type. -/
theorem propertySelectedValue_spec_witness :
    (propertySelectedValue
        [("hidden", ⟨"Hidden", "bool", [("true", "Yes"), ("false", "No")]⟩)]
        "hidden").value = "hidden" ∧
      (propertySelectedValue
        [("hidden", ⟨"Hidden", "bool", [("true", "Yes"), ("false", "No")]⟩)]
        "hidden").type = "bool" ∧
      (propertySelectedValue
        [("hidden", ⟨"Hidden", "bool", [("true", "Yes"), ("false", "No")]⟩)]
        "").type = "" :=
  ⟨(propertySelectedValue_spec
      [("hidden", ⟨"Hidden", "bool", [("true", "Yes"), ("false", "No")]⟩)]
      "hidden").1,
   (propertySelectedValue_spec
      [("hidden", ⟨"Hidden", "bool", [("true", "Yes"), ("false", "No")]⟩)]
      "hidden").2.1 ⟨"Hidden", "bool", [("true", "Yes"), ("false", "No")]⟩
      (by decide),
   (propertySelectedValue_spec
      [("hidden", ⟨"Hidden", "bool", [("true", "Yes"), ("false", "No")]⟩)]
      "").2.2 (by decide)⟩

/-- General characterization of `variableSelectionChoices`: for any filter,
the result is the three fixed groups, each holding exactly the options of
the filtered variables whose source names that group. -/
lemma variableSelectionChoices_eq (includeStaticVariables : Bool)
    (staticVariables formVariables : List FormVariable)
    (formSteps : List FormStep) (filt : FormVariable → Bool) :
    variableSelectionChoices includeStaticVariables staticVariables
        formVariables formSteps filt =
      [⟨"user variables",
          ((((if includeStaticVariables then staticVariables else []) ++
              formVariables).filter filt).filter
            (fun v => getVariableSource v == "user variables")).map
            (variableChoiceOption formSteps)⟩,
       ⟨"component variables",
          ((((if includeStaticVariables then staticVariables else []) ++
              formVariables).filter filt).filter
            (fun v => getVariableSource v == "component variables")).map
            (variableChoiceOption formSteps)⟩,
       ⟨"static variables",
          ((((if includeStaticVariables then staticVariables else []) ++
              formVariables).filter filt).filter
            (fun v => getVariableSource v == "static variables")).map
            (variableChoiceOption formSteps)⟩] := by
  simp only [variableSelectionChoices]
  simpa using foldl_pushToGroup formSteps
    (((if includeStaticVariables then staticVariables else []) ++
      formVariables).filter filt) [] [] []

/-- C6: the choices offered by `VariableSelection` are exactly the variables
satisfying the filter (static variables considered only when
`includeStaticVariables` is set), each placed in the single group determined
by its source; and with the fetch-from-service editor's filter the dropdown
offers exactly the variables whose source is `user_defined`, all in the user
variables group. -/
theorem variableSelection_choices_spec (includeStaticVariables : Bool)
    (staticVariables formVariables : List FormVariable)
    (formSteps : List FormStep) (filter : FormVariable → Bool) :
    (variableSelectionChoices includeStaticVariables staticVariables
        formVariables formSteps filter =
      [⟨"user variables",
          ((((if includeStaticVariables then staticVariables else []) ++
              formVariables).filter filter).filter
            (fun v => getVariableSource v == "user variables")).map
            (variableChoiceOption formSteps)⟩,
       ⟨"component variables",
          ((((if includeStaticVariables then staticVariables else []) ++
              formVariables).filter filter).filter
            (fun v => getVariableSource v == "component variables")).map
            (variableChoiceOption formSteps)⟩,
       ⟨"static variables",
          ((((if includeStaticVariables then staticVariables else []) ++
              formVariables).filter filter).filter
            (fun v => getVariableSource v == "static variables")).map
            (variableChoiceOption formSteps)⟩]) ∧
    (variableSelectionChoices includeStaticVariables staticVariables
        formVariables formSteps fetchFromServiceFilter =
      [⟨"user variables",
          (((if includeStaticVariables then staticVariables else []) ++
              formVariables).filter fetchFromServiceFilter).map
            (variableChoiceOption formSteps)⟩,
       ⟨"component variables", []⟩,
       ⟨"static variables", []⟩]) := by
  constructor
  · exact variableSelectionChoices_eq includeStaticVariables staticVariables
      formVariables formSteps filter
  · rw [variableSelectionChoices_eq includeStaticVariables staticVariables
      formVariables formSteps fetchFromServiceFilter]
    have hsource : ∀ v ∈ ((if includeStaticVariables then staticVariables
        else []) ++ formVariables).filter fetchFromServiceFilter,
        getVariableSource v = "user variables" := by
      intro v hv
      have hkeep : fetchFromServiceFilter v = true := List.of_mem_filter hv
      have hsrc : v.source = "user_defined" := by
        simpa [fetchFromServiceFilter] using hkeep
      simp [getVariableSource, sourceUserDefined, hsrc]
    have huser :
        (((if includeStaticVariables then staticVariables else []) ++
          formVariables).filter fetchFromServiceFilter).filter
          (fun v => getVariableSource v == "user variables") =
        ((if includeStaticVariables then staticVariables else []) ++
          formVariables).filter fetchFromServiceFilter :=
      List.filter_eq_self.mpr (fun v hv => by simp [hsource v hv])
    have hcomp :
        (((if includeStaticVariables then staticVariables else []) ++
          formVariables).filter fetchFromServiceFilter).filter
          (fun v => getVariableSource v == "component variables") = [] :=
      List.filter_eq_nil_iff.mpr (fun v hv => by simp [hsource v hv])
    have hstatic :
        (((if includeStaticVariables then staticVariables else []) ++
          formVariables).filter fetchFromServiceFilter).filter
          (fun v => getVariableSource v == "static variables") = [] :=
      List.filter_eq_nil_iff.mpr (fun v hv => by simp [hsource v hv])
    rw [huser, hcomp, hstatic]
    simp

/-- C5: every update of the prefill plugin field to a new value resets the
dependent attribute field to the empty string. -/
theorem pluginFieldUpdate_resets_attribute (values : PrefillValues)
    (newPlugin : String) (hnew : newPlugin ≠ values.plugin) :
    (pluginFieldUpdate values newPlugin).attributeValue = "" ∧
      (pluginFieldUpdate values newPlugin).plugin = newPlugin := by
  simp [pluginFieldUpdate, hnew]

/-- Witness for `pluginFieldUpdate_resets_attribute`: switching from the
`haalcentraal` plugin to `stufbg` clears the selected attribute. -/
theorem pluginFieldUpdate_resets_attribute_witness :
    (pluginFieldUpdate
        ⟨"haalcentraal", "bsn", "main", ⟨"", "", none, []⟩⟩
        "stufbg").attributeValue = "" ∧
      (pluginFieldUpdate
        ⟨"haalcentraal", "bsn", "main", ⟨"", "", none, []⟩⟩
        "stufbg").plugin = "stufbg" :=
  pluginFieldUpdate_resets_attribute
    ⟨"haalcentraal", "bsn", "main", ⟨"", "", none, []⟩⟩ "stufbg" (by decide)

/-- C7: the attribute selection field is disabled whenever the plugin field
is unset, for every state of the form values. -/
theorem attributeField_disabled_without_plugin (values : PrefillValues)
    (hplugin : values.plugin = "") : attributeFieldDisabled values = true := by
  simp [attributeFieldDisabled, hplugin]

/-- Witness for `attributeField_disabled_without_plugin` at a form state
with no plugin selected. -/
theorem attributeField_disabled_without_plugin_witness :
    attributeFieldDisabled ⟨"", "bsn", "main", ⟨"", "", none, []⟩⟩ = true :=
  attributeField_disabled_without_plugin
    ⟨"", "bsn", "main", ⟨"", "", none, []⟩⟩ rfl

/-- A write through reference `i` leaves every other store cell unchanged. -/
lemma storeWrite_getElem?_ne (store : ConfigStore) (i j : Nat) (hij : i ≠ j)
    (f : ServiceFetchConfig → ServiceFetchConfig) :
    (storeWrite store i f)[j]? = store[j]? := by
  unfold storeWrite
  cases h : store[i]? with
  | none => rfl
  | some cfg => simp [List.getElem?_set_ne hij]

/-- The three in-place normalization writes through reference `i` leave
every other store cell unchanged. -/
lemma normalizeConfigAt_getElem?_ne (store : ConfigStore) (i j : Nat)
    (hij : i ≠ j) : (normalizeConfigAt store i)[j]? = store[j]? := by
  simp only [normalizeConfigAt]
  rw [storeWrite_getElem?_ne _ _ _ hij, storeWrite_getElem?_ne _ _ _ hij,
    storeWrite_getElem?_ne _ _ _ hij]

/-- C9: the fetch-from-service normalization mutates only the freshly
allocated deep clone: every configuration cell that existed before — in
particular the one any form-context variable references — is unchanged
afterwards, and the reference handed to the editor, when present, is the
fresh cell outside the original store. -/
theorem serviceFetchConfig_preserves_context (store : ConfigStore)
    (formVariables : List FetchContextVariable) (actionVariable : String) :
    (∀ j, j < store.length →
      ((serviceFetchConfigFromVar store formVariables actionVariable).2)[j]? =
        store[j]?) ∧
    (∀ r,
      (serviceFetchConfigFromVar store formVariables actionVariable).1 =
        some r → r = store.length) := by
  constructor
  · intro j hj
    unfold serviceFetchConfigFromVar
    split
    · rfl
    · split
      · rfl
      · split
        · rfl
        · rename_i element r cfg hstore
          show (normalizeConfigAt (store ++ [cfg]) store.length)[j]? = store[j]?
          have hne : store.length ≠ j := by omega
          rw [normalizeConfigAt_getElem?_ne _ _ _ hne]
          exact List.getElem?_append_left hj
  · intro r hr
    unfold serviceFetchConfigFromVar at hr
    split at hr
    · exact absurd hr (by simp)
    · split at hr
      · exact absurd hr (by simp)
      · split at hr
        · exact absurd hr (by simp)
        · exact (Option.some.inj hr).symm

/-- Witness for `serviceFetchConfig_preserves_context`: on a one-cell store
whose only variable points at cell 0 with object-shaped headers, the
normalization leaves cell 0 as it was and returns the fresh reference 1. -/
theorem serviceFetchConfig_preserves_context_witness :
    ((serviceFetchConfigFromVar
        [⟨"cfg", some (.asObject [("X-Auth", "token")]), none, "jq", ".",
          none, none⟩]
        [⟨"myVar", some 0⟩] "myVar").2)[0]? =
      some ⟨"cfg", some (.asObject [("X-Auth", "token")]), none, "jq", ".",
        none, none⟩ ∧
    (serviceFetchConfigFromVar
        [⟨"cfg", some (.asObject [("X-Auth", "token")]), none, "jq", ".",
          none, none⟩]
        [⟨"myVar", some 0⟩] "myVar").1 = some 1 := by
  constructor
  · exact (serviceFetchConfig_preserves_context
      [⟨"cfg", some (.asObject [("X-Auth", "token")]), none, "jq", ".",
        none, none⟩]
      [⟨"myVar", some 0⟩] "myVar").1 0 (by decide)
  · decide

/-- C10: the password field's edit form keeps in its sensitive-password tab
only components whose key differs from `DEFAULT_VALUE.key`, which is
`defaultValue`, and passes the advanced, validation, registration and
translations tabs through unchanged. -/
theorem passwordEditForm_no_default_value (sensitivePassword advanced
    validation registration translations : EditFormTab) :
    passwordEditForm sensitivePassword advanced validation registration
        translations =
      { sensitivePassword with
          components := sensitivePassword.components.filter
            (fun option => option.key != DEFAULT_VALUE.key) } ::
        [advanced, validation, registration, translations] ∧
    DEFAULT_VALUE.key = "defaultValue" ∧
    ∀ comp ∈ sensitivePassword.components.filter
        (fun option => option.key != DEFAULT_VALUE.key),
      comp.key ≠ "defaultValue" := by
  refine ⟨rfl, rfl, ?_⟩
  intro comp hcomp
  have hkeep : (comp.key != DEFAULT_VALUE.key) = true :=
    (List.mem_filter.mp hcomp).2
  simpa [DEFAULT_VALUE] using hkeep

/-- Witness for `passwordEditForm_no_default_value`: the label component
kept alongside the dropped `DEFAULT_VALUE` in a concrete sensitive tab does
not carry the `defaultValue` key. -/
theorem passwordEditForm_no_default_value_witness :
    (⟨"label", "Label", "", true⟩ : EditFormComponent).key ≠ "defaultValue" :=
  (passwordEditForm_no_default_value
      ⟨"sensitive-password", [DEFAULT_VALUE, ⟨"label", "Label", "", true⟩]⟩
      ⟨"advanced", []⟩ ⟨"validation", []⟩ ⟨"registration", []⟩
      ⟨"translations", []⟩).2.2
    ⟨"label", "Label", "", true⟩ (by decide)

end OpenForms
